import Mathlib

/-!
Verification of the ksat task-orchestration library (src/task.go).

The embedding is shallow: a Go `error` result is `Option Err` where `none`
is the nil error (success) and `some e` is a non-nil error `e`; the opaque
`context.Context` is a type parameter `Ctx`.  Effectful Go code is modelled
by explicit state passing: each `Run` returns, alongside its Go return
value, the final value of the receiver and an observation of the work it
performed (the ordered trace of task invocations for `Chain`, the ordered
list of launched goroutines for `List`).  The body of the goroutine spawned
by `List.Run` is modelled separately as `execTask`, since its execution is
concurrent with (and not awaited by) `Run` itself.
-/

namespace Ksat

/-- Model of `Task` (task.go lines 5-8): a runnable unit of work with
`Run(ctx) error`, modelled as a function from the context to an optional
error. -/
structure Task (Ctx Err : Type) where
  run : Ctx → Option Err

/-- Model of `Func` (task.go lines 10-11): a plain function with the Task
signature. -/
def Func (Ctx Err : Type) : Type := Ctx → Option Err

/-- Model of `Func.Run` (task.go lines 13-15): `return fn(ctx)` — it simply
forwards the call to the underlying function. -/
def Func.Run {Ctx Err : Type} (fn : Func Ctx Err) (ctx : Ctx) : Option Err :=
  fn ctx

/-- A `Func` satisfies the `Task` capability through its `Run` method. -/
def Func.toTask {Ctx Err : Type} (fn : Func Ctx Err) : Task Ctx Err :=
  ⟨fun ctx => Func.Run fn ctx⟩

/-- Model of `ErrorHandler` (task.go line 18): `func(error)`.  The value of
type `Eff` is the handler's observable effect, recorded when it is invoked.
A Go nil handler value is modelled by `Option (ErrorHandler Err Eff)` at the
use sites. -/
def ErrorHandler (Err Eff : Type) : Type := Err → Eff

/-- Model of the unexported `task` struct (task.go lines 20-23): a `Task`
paired with its `ErrorHandler`.  Field `e` is `Option` because the Go
function value may be nil. -/
structure TaskEntry (Ctx Err Eff : Type) where
  t : Task Ctx Err
  e : Option (ErrorHandler Err Eff)

/-- Observable completion of one goroutine spawned by `List.Run`:
either the task returned a nil error and the handler was never called
(`ok`), or it returned error `err` and the handler was invoked exactly once
with `err`, producing effect `eff` (`handled`), or it returned error `err`
while the handler value was nil, so invoking it panics (`panicked`). -/
inductive ExecOutcome (Err Eff : Type) where
  | ok : ExecOutcome Err Eff
  | handled (err : Err) (eff : Eff) : ExecOutcome Err Eff
  | panicked (err : Err) : ExecOutcome Err Eff
deriving DecidableEq

/-- Model of the goroutine body in `List.Run` (task.go lines 39-43):
`if err := task.Run(ctx); err != nil { handler(err) }`.  Calling a nil Go
function value panics, hence the `panicked` outcome when the entry holds no
handler. -/
def execTask {Ctx Err Eff : Type} (ctx : Ctx) (entry : TaskEntry Ctx Err Eff) :
    ExecOutcome Err Eff :=
  match entry.t.run ctx with
  | none => ExecOutcome.ok
  | some err =>
    match entry.e with
    | some h => ExecOutcome.handled err (h err)
    | none => ExecOutcome.panicked err

/-- Model of `List` (task.go lines 25-28): a sequence of (Task,
ErrorHandler) pairs run concurrently.  Named `TaskList` because `List` is
taken in Lean.  The Go zero value holds a nil slice; a nil slice and an
empty slice behave identically under `append` and `range`, so both are
modelled as `[]`. -/
structure TaskList (Ctx Err Eff : Type) where
  tasks : List (TaskEntry Ctx Err Eff)

/-- Model of `List.Add` (task.go lines 30-33): appends the pair to the
internal sequence. -/
def TaskList.Add {Ctx Err Eff : Type} (l : TaskList Ctx Err Eff)
    (t : Task Ctx Err) (e : Option (ErrorHandler Err Eff)) :
    TaskList Ctx Err Eff :=
  ⟨l.tasks ++ [⟨t, e⟩]⟩

/-- The loop of `List.Run` (task.go lines 38-44): iterates over the slice in
order and launches one goroutine per entry, passing `(tsk.t, tsk.e)`.  The
result is the list of launched goroutines in launch order; their bodies run
concurrently and are modelled by `execTask`, which `Run` never awaits. -/
def launchAll {Ctx Err Eff : Type} :
    List (TaskEntry Ctx Err Eff) → List (TaskEntry Ctx Err Eff)
  | [] => []
  | entry :: rest => entry :: launchAll rest

/-- Model of `List.Run` (task.go lines 37-46): launches every registered
entry as a goroutine, then sets `l.tasks = nil` and returns.  The Go
function returns nothing; the first component here is the observation of
which goroutines were launched (in launch order), and the second is the
final state of the receiver.  No `ExecOutcome` appears in the result:
`Run` does not wait for, and returns nothing about, the spawned work. -/
def TaskList.Run {Ctx Err Eff : Type} (l : TaskList Ctx Err Eff) (_ctx : Ctx) :
    List (TaskEntry Ctx Err Eff) × TaskList Ctx Err Eff :=
  (launchAll l.tasks, ⟨[]⟩)

/-- Model of `Chain` (task.go lines 48-51): an ordered sequence of tasks run
sequentially.  The Go zero value holds a nil slice, modelled as `[]`. -/
structure Chain (Ctx Err : Type) where
  tasks : List (Task Ctx Err)

/-- Model of `Chain.Add` (task.go lines 53-56): appends all given tasks, in
the order they are specified, to the end of the internal sequence. -/
def Chain.Add {Ctx Err : Type} (c : Chain Ctx Err) (ts : List (Task Ctx Err)) :
    Chain Ctx Err :=
  ⟨c.tasks ++ ts⟩

/-- The loop of `Chain.Run` (task.go lines 61-65): runs each task in order;
on the first non-nil error it stops immediately.  Returns the ordered trace
of tasks actually invoked together with the error returned, if any. -/
def chainLoop {Ctx Err : Type} (ctx : Ctx) :
    List (Task Ctx Err) → List (Task Ctx Err) × Option Err
  | [] => ([], none)
  | t :: rest =>
    match t.run ctx with
    | some err => ([t], some err)
    | none =>
      let r := chainLoop ctx rest
      (t :: r.1, r.2)

/-- Model of `Chain.Run` (task.go lines 60-68).  Faithful to the control
flow of the source: when a task fails, `return err` executes inside the loop
and the assignment `c.tasks = nil` on line 66 is never reached, so the
receiver keeps its tasks; only the all-success path clears the sequence.
The result is (trace of invoked tasks, returned error, final receiver). -/
def Chain.Run {Ctx Err : Type} (c : Chain Ctx Err) (ctx : Ctx) :
    List (Task Ctx Err) × Option Err × Chain Ctx Err :=
  let r := chainLoop ctx c.tasks
  match r.2 with
  | some err => (r.1, some err, c)
  | none => (r.1, none, ⟨[]⟩)

/-- The zero-initialized `List`: in Go, a struct whose `tasks` slice is nil,
modelled as the empty sequence. -/
def TaskList.zeroValue {Ctx Err Eff : Type} : TaskList Ctx Err Eff :=
  ⟨[]⟩

/-- The zero-initialized `Chain`: in Go, a struct whose `tasks` slice is
nil, modelled as the empty sequence. -/
def Chain.zeroValue {Ctx Err : Type} : Chain Ctx Err :=
  ⟨[]⟩

/-! Concrete instances used by witnesses and counterexamples: `Ctx := Unit`,
`Err := Nat`, `Eff := Nat`. -/

/-- A task that always succeeds (returns the nil error). -/
def okTask : Task Unit Nat :=
  ⟨fun _ => none⟩

/-- A task that always fails with error `1`. -/
def failTask1 : Task Unit Nat :=
  ⟨fun _ => some 1⟩

/-- A task that always fails with error `2`. -/
def failTask2 : Task Unit Nat :=
  ⟨fun _ => some 2⟩

/-- A chain holding a single failing task, exhibiting the missed reset on
the error path of `Chain.Run`. -/
def bugChain : Chain Unit Nat :=
  ⟨[failTask1]⟩

/-- A chain holding [succeed, fail 2, succeed], the shape of the spec's
Scenario B. -/
def scenarioBChain : Chain Unit Nat :=
  ⟨[okTask, failTask2, okTask]⟩

/-! Helper lemmas. -/

/-- Launching goroutines preserves the registered entries and their order. -/
theorem launchAll_eq {Ctx Err Eff : Type} (ts : List (TaskEntry Ctx Err Eff)) :
    launchAll ts = ts := by
  induction ts with
  | nil => rfl
  | cons entry rest ih => simp [launchAll, ih]

/-- When every task in the sequence succeeds, the chain loop invokes each of
them once in order and reports no error. -/
theorem chainLoop_all_none {Ctx Err : Type} (ctx : Ctx)
    (ts : List (Task Ctx Err)) (hall : ∀ t ∈ ts, t.run ctx = none) :
    chainLoop ctx ts = (ts, none) := by
  induction ts with
  | nil => rfl
  | cons t rest ih =>
    have ht : t.run ctx = none := hall t (List.mem_cons_self t rest)
    have hrest : ∀ u ∈ rest, u.run ctx = none :=
      fun u hu => hall u (List.mem_cons_of_mem t hu)
    simp [chainLoop, ht, ih hrest]

/-- When the first `k` tasks succeed and the task at index `k` fails with
`err`, the chain loop invokes exactly the first `k + 1` tasks in order and
reports `err`. -/
theorem chainLoop_firstFail {Ctx Err : Type} (ctx : Ctx) :
    ∀ (ts : List (Task Ctx Err)) (k : Nat) (tk : Task Ctx Err) (err : Err),
      (∀ t ∈ ts.take k, t.run ctx = none) → ts[k]? = some tk →
      tk.run ctx = some err →
      chainLoop ctx ts = (ts.take (k + 1), some err) := by
  intro ts
  induction ts with
  | nil => intro k tk err _ hk; simp at hk
  | cons t rest ih =>
    intro k tk err hpre hk hfail
    cases k with
    | zero =>
      have ht : t = tk := by simpa using hk
      subst ht
      simp [chainLoop, hfail]
    | succ k =>
      have ht : t.run ctx = none := by
        apply hpre
        simp [List.take_succ_cons]
      have hk' : rest[k]? = some tk := by simpa using hk
      have hpre' : ∀ u ∈ rest.take k, u.run ctx = none := by
        intro u hu
        apply hpre
        simp [List.take_succ_cons, hu]
      simp [chainLoop, ht, ih k tk err hpre' hk' hfail, List.take_succ_cons]

/-! Claim theorems. -/

/-- C1: evaluation of `Chain.Run` at the failing input.  The claim says the
internal task sequence is cleared after `Run` whether it returns nil or a
non-nil error, so a subsequent `Run` with no intervening `Add` executes zero
tasks.  The code contradicts this (and its own doc comment "When Run()
completes, c is reset"): on the error path `return err` skips the
`c.tasks = nil` assignment.  Running a chain holding one failing task
returns error `1`, yet the chain still holds `1` task afterwards, and a
second `Run` with no intervening `Add` executes `1` task, not zero. -/
theorem chain_error_skips_reset :
    (bugChain.Run ()).2.1 = some 1 ∧
    ((bugChain.Run ()).2.2).tasks.length = 1 ∧
    (((bugChain.Run ()).2.2).Run ()).1.length = 1 :=
  ⟨rfl, rfl, rfl⟩

/-- C2: for a chain whose first `k` registered tasks succeed and whose task
at index `k` (0-based) fails with `err`, `Chain.Run` invokes exactly the
first `k + 1` tasks, each once, in registration order — so the tasks before
the failure each run once to completion, the failing task runs once, the
later tasks never run — and returns exactly `err`. -/
theorem chain_failFast {Ctx Err : Type} (c : Chain Ctx Err) (ctx : Ctx)
    (k : Nat) (tk : Task Ctx Err) (err : Err)
    (hpre : ∀ t ∈ c.tasks.take k, t.run ctx = none)
    (hk : c.tasks[k]? = some tk) (hfail : tk.run ctx = some err) :
    (c.Run ctx).1 = c.tasks.take (k + 1) ∧ (c.Run ctx).2.1 = some err := by
  have h := chainLoop_firstFail ctx c.tasks k tk err hpre hk hfail
  simp [Chain.Run, h]

/-- Witness for C2: Scenario B of the spec — a chain [succeed, fail 2,
succeed] invokes exactly its first two tasks and returns error `2`. -/
theorem chain_failFast_witness :
    (scenarioBChain.Run ()).1 = scenarioBChain.tasks.take 2 ∧
    (scenarioBChain.Run ()).2.1 = some 2 :=
  chain_failFast scenarioBChain () 1 failTask2 2
    (by
      intro t ht
      have h : t = okTask := by simpa [scenarioBChain] using ht
      subst h
      rfl)
    rfl rfl

/-- C3: for a chain in which no task fails, `Chain.Run` invokes every
registered task exactly once in registration order (the trace is exactly
the registration sequence) and returns the nil error. -/
theorem chain_allSucceed {Ctx Err : Type} (c : Chain Ctx Err) (ctx : Ctx)
    (hall : ∀ t ∈ c.tasks, t.run ctx = none) :
    (c.Run ctx).1 = c.tasks ∧ (c.Run ctx).2.1 = none := by
  have h := chainLoop_all_none ctx c.tasks hall
  simp [Chain.Run, h]

/-- A chain holding two succeeding tasks. -/
def allOkChain : Chain Unit Nat :=
  ⟨[okTask, okTask]⟩

/-- Witness for C3: a chain of two succeeding tasks runs both in order and
returns the nil error. -/
theorem chain_allSucceed_witness :
    (allOkChain.Run ()).1 = allOkChain.tasks ∧ (allOkChain.Run ()).2.1 = none :=
  chain_allSucceed allOkChain ()
    (by
      intro t ht
      have h : t = okTask := by simpa [allOkChain] using ht
      subst h
      rfl)

/-- C4: every registered pair is launched by `List.Run`, and the spawned
execution of a pair invokes the paired handler exactly once with the exact
error when the task's run returns a non-nil error, and never invokes the
handler when the task's run returns the nil error. -/
theorem list_handler_contract {Ctx Err Eff : Type} (l : TaskList Ctx Err Eff)
    (ctx : Ctx) (entry : TaskEntry Ctx Err Eff) (hmem : entry ∈ l.tasks) :
    entry ∈ (l.Run ctx).1 ∧
    (∀ err h, entry.t.run ctx = some err → entry.e = some h →
      execTask ctx entry = ExecOutcome.handled err (h err)) ∧
    (entry.t.run ctx = none → execTask ctx entry = ExecOutcome.ok) := by
  refine ⟨?_, ?_, ?_⟩
  · simpa [TaskList.Run, launchAll_eq] using hmem
  · intro err h herr hh
    simp [execTask, herr, hh]
  · intro hok
    simp [execTask, hok]

/-- A handler recording its invocation by adding ten to the error value. -/
def handlerPlusTen : ErrorHandler Nat Nat := fun err => err + 10

/-- A handler recording its invocation as the effect `0`. -/
def handlerZero : ErrorHandler Nat Nat := fun _ => 0

/-- The succeeding entry of the spec's Scenario C. -/
def okEntry : TaskEntry Unit Nat Nat :=
  ⟨okTask, some handlerZero⟩

/-- The failing entry of the spec's Scenario C. -/
def failEntry : TaskEntry Unit Nat Nat :=
  ⟨failTask2, some handlerPlusTen⟩

/-- A list holding [succeed with handler, fail 2 with handler], the shape of
the spec's Scenario C. -/
def scenarioCList : TaskList Unit Nat Nat :=
  ⟨[okEntry, failEntry]⟩

/-- Witness for C4: in Scenario C the failing entry's handler is invoked
once with error `2` (producing effect `12 = 2 + 10`), and the succeeding
entry's handler is never invoked. -/
theorem list_handler_contract_witness :
    execTask () failEntry = ExecOutcome.handled 2 12 ∧
    execTask () okEntry = ExecOutcome.ok :=
  ⟨(list_handler_contract scenarioCList () failEntry
      (List.mem_cons_of_mem _ (List.mem_cons_self _ _))).2.1 2 handlerPlusTen rfl rfl,
   (list_handler_contract scenarioCList () okEntry
      (List.mem_cons_self _ _)).2.2 rfl⟩

/-- C5: `List.Run` clears the internal task sequence before returning.  That
it returns without waiting for any spawned execution and returns no result
is expressed by the type of `TaskList.Run` itself: its result holds only the
launched entries and the cleared receiver, and no `ExecOutcome` — the
outcomes of the spawned goroutines are produced by `execTask` outside of
`Run`. -/
theorem list_run_clears_no_wait {Ctx Err Eff : Type}
    (l : TaskList Ctx Err Eff) (ctx : Ctx) :
    ((l.Run ctx).2).tasks = [] :=
  rfl

/-- C6: `List.Run` on a list of N registered pairs launches exactly N
executions, one per registered pair, in registration order, and the
registered-task count is 0 immediately after `Run` returns. -/
theorem list_run_launch_count {Ctx Err Eff : Type}
    (l : TaskList Ctx Err Eff) (ctx : Ctx) :
    (l.Run ctx).1 = l.tasks ∧ (l.Run ctx).1.length = l.tasks.length ∧
    ((l.Run ctx).2).tasks.length = 0 := by
  simp [TaskList.Run, launchAll_eq]

/-- C7: `Run` on an empty list or empty chain is a no-op: the empty list
launches no executions and ends cleared; the empty chain invokes no task and
returns the nil error with a cleared sequence. -/
theorem empty_run_noop {Ctx Err Eff : Type} (ctx : Ctx) :
    ((⟨[]⟩ : TaskList Ctx Err Eff).Run ctx) = ([], ⟨[]⟩) ∧
    ((⟨[]⟩ : Chain Ctx Err).Run ctx) = ([], none, ⟨[]⟩) :=
  ⟨rfl, rfl⟩

/-- C8: the `Func` adapter purely forwards the call: `Func.Run fn ctx` is
exactly `fn ctx`, also when the adapter is used through the `Task`
capability. -/
theorem func_run_forwards {Ctx Err : Type} (fn : Func Ctx Err) (ctx : Ctx) :
    Func.Run fn ctx = fn ctx ∧ (Func.toTask fn).run ctx = fn ctx :=
  ⟨rfl, rfl⟩

/-- C9: a zero-initialized `List` or `Chain` is immediately usable: `Add`
followed by `Run` on the zero value (nil slice) behaves identically to the
same calls on an explicitly constructed empty instance, with no error
branch in either operation. -/
theorem zero_value_usable {Ctx Err Eff : Type} (t : Task Ctx Err)
    (e : Option (ErrorHandler Err Eff)) (ts : List (Task Ctx Err)) (ctx : Ctx) :
    TaskList.Add TaskList.zeroValue t e =
      TaskList.Add (⟨[]⟩ : TaskList Ctx Err Eff) t e ∧
    (TaskList.Add TaskList.zeroValue t e).Run ctx =
      (TaskList.Add (⟨[]⟩ : TaskList Ctx Err Eff) t e).Run ctx ∧
    Chain.Add Chain.zeroValue ts = Chain.Add (⟨[]⟩ : Chain Ctx Err) ts ∧
    (Chain.Add Chain.zeroValue ts).Run ctx =
      (Chain.Add (⟨[]⟩ : Chain Ctx Err) ts).Run ctx :=
  ⟨rfl, rfl, rfl, rfl⟩

/-- C10: when an entry's handler is nil, the spawned execution panics
exactly when the task's run returns a non-nil error (the nil function value
is invoked), and completes normally when the task succeeds — a nil handler
is safe only for a succeeding task. -/
theorem nil_handler_panics {Ctx Err Eff : Type} (ctx : Ctx)
    (entry : TaskEntry Ctx Err Eff) (hnil : entry.e = none) :
    (∀ err, entry.t.run ctx = some err →
      execTask ctx entry = ExecOutcome.panicked err) ∧
    (entry.t.run ctx = none → execTask ctx entry = ExecOutcome.ok) := by
  constructor
  · intro err herr
    simp [execTask, herr, hnil]
  · intro hok
    simp [execTask, hok]

/-- An entry pairing a failing task with a nil handler. -/
def nilHandlerEntry : TaskEntry Unit Nat Nat :=
  ⟨failTask1, none⟩

/-- Witness for C10: the execution of a failing task paired with a nil
handler panics with the task's error. -/
theorem nil_handler_panics_witness :
    execTask () nilHandlerEntry = ExecOutcome.panicked 1 :=
  (nil_handler_panics () nilHandlerEntry rfl).1 1 rfl

end Ksat
